import Mathlib

/-
Verification development for the harmony chat client's real-time message
synchronization core. The definitions below are a shallow embedding of the
TypeScript/ArkTS sources:

  * entry/src/main/ets/common/model/ChatMessage.ets   (ChatMessage, ChatConversation, toJson/fromJson)
  * entry/src/main/ets/common/model/ChatManager.ets   (conversation store: caches and handlers)
  * entry/src/main/ets/common/api/WebSocketManager.ets (connection state machine, emit, dispatcher)
  * the second WebSocketManager variant embedded at the end of
    entry/src/main/ets/common/push/PushManager.ets     (messageQueue + replay-on-open)

JavaScript `Date` values are modelled as their millisecond value (Int).
JavaScript `x || default` coalescing is modelled by the jsOr* helpers, with
`Option` for possibly-undefined values. Platform I/O (the physical socket,
local storage, HTTP) is modelled as pure state: the socket is a sink list of
sent frames, storage writes are no-ops on the in-memory view (which the code
treats as authoritative).
-/

namespace Harmony

/-- JavaScript `n || d` for numbers: `0` is falsy. -/
def jsOrInt (v : Option Int) (d : Int) : Int :=
  match v with
  | none => d
  | some n => if n = 0 then d else n

/-- JavaScript `s || d` for strings: the empty string is falsy. -/
def jsOrStr (v : Option String) (d : String) : String :=
  match v with
  | none => d
  | some s => if s = "" then d else s

/-- JavaScript `b || d` for booleans: `false` is falsy. -/
def jsOrBool (v : Option Bool) (d : Bool) : Bool :=
  match v with
  | none => d
  | some b => if b then b else d

/-- ChatMessage from ChatMessage.ets: `createdAt` is the Date's millisecond
value; `senderName`/`senderAvatar` are optional (`undefined` = `none`). -/
structure ChatMsg where
  id : Int
  senderId : Int
  receiverId : Int
  message : String
  messageType : String
  isRead : Bool
  createdAt : Int
  senderName : Option String
  senderAvatar : Option String
deriving Repr, DecidableEq

/-- Wire shape of `ChatMessage.toJson()` output and `fromJson` input: every
field may be absent/undefined (`none`). -/
structure MsgJson where
  id : Option Int
  senderId : Option Int
  receiverId : Option Int
  message : Option String
  messageType : Option String
  isRead : Option Bool
  createdAt : Option Int
  senderName : Option String
  senderAvatar : Option String
deriving Repr, DecidableEq

/-- ChatMessage.toJson from ChatMessage.ets: emits every field, with
`createdAt` as `this.createdAt.getTime()`. -/
def ChatMsg.toJson (m : ChatMsg) : MsgJson :=
  { id := some m.id
    senderId := some m.senderId
    receiverId := some m.receiverId
    message := some m.message
    messageType := some m.messageType
    isRead := some m.isRead
    createdAt := some m.createdAt
    senderName := m.senderName
    senderAvatar := m.senderAvatar }

/-- ChatMessage.fromJson from ChatMessage.ets: each field is
`json.x || default`; `createdAt` is `new Date(json.createdAt || Date.now())`,
so `now` is the current clock reading at decode time. -/
def ChatMsg.fromJson (j : MsgJson) (now : Int) : ChatMsg :=
  { id := jsOrInt j.id 0
    senderId := jsOrInt j.senderId 0
    receiverId := jsOrInt j.receiverId 0
    message := jsOrStr j.message ""
    messageType := jsOrStr j.messageType "text"
    isRead := jsOrBool j.isRead false
    createdAt := jsOrInt j.createdAt now
    senderName := some (jsOrStr j.senderName "")
    senderAvatar := some (jsOrStr j.senderAvatar "") }

/-- Wire input in which every field is absent. -/
def emptyMsgJson : MsgJson :=
  { id := none, senderId := none, receiverId := none, message := none,
    messageType := none, isRead := none, createdAt := none,
    senderName := none, senderAvatar := none }

/-- Connection status of common/api/WebSocketManager.ets
(`WebSocketStatus`). -/
inductive WsStatus where
  | disconnected
  | connecting
  | connected
  | errorStatus
deriving Repr, DecidableEq

/-- Wire frame `\x7bevent, data\x7d`; the payload is abstracted as a string. -/
structure WsFrame where
  event : String
  data : String
deriving Repr, DecidableEq

/-- Connection-listener notifications fanned out by
`notifyConnectionListeners`. -/
inductive ConnEvent where
  | connectedEvt
  | disconnectedEvt
  | errorEvt (msg : String)
deriving Repr, DecidableEq

/-- State of common/api/WebSocketManager.ets. `reconnectTimer` holds the
delay of the currently scheduled reconnect timer (if any), `sentFrames` is
the transport sink (frames handed to `webSocket.send`), `connEvents`
accumulates notifications to connection listeners. -/
structure WsState where
  status : WsStatus
  hasSocket : Bool
  reconnectTimer : Option Nat
  reconnectAttempts : Nat
  maxReconnectAttempts : Nat
  reconnectDelay : Nat
  sentFrames : List WsFrame
  connEvents : List ConnEvent
deriving Repr, DecidableEq

/-- Result observed by a caller of `emit`: the promise either resolves
(with no value) or rejects. In the not-connected path the code logs and
returns, so the promise resolves. -/
inductive EmitOutcome where
  | resolvedUnit
  | rejected (err : String)
deriving Repr, DecidableEq

/-- Whether an emit outcome is an error visible to the caller. -/
def EmitOutcome.isError : EmitOutcome → Bool
  | .resolvedUnit => false
  | .rejected _ => true

/-- WebSocketManager.emit (common/api/WebSocketManager.ets lines 155-173):
when not connected (or no socket) it logs and returns — the frame is neither
sent nor recorded anywhere. When connected it sends the serialized envelope.
The catch branch rethrows only when the platform send itself throws, which
is not modelled (sends succeed). -/
def emitWs (s : WsState) (f : WsFrame) : WsState × EmitOutcome :=
  if s.status ≠ WsStatus.connected ∨ s.hasSocket = false then
    (s, .resolvedUnit)
  else
    ({ s with sentFrames := s.sentFrames ++ [f] }, .resolvedUnit)

/-- WebSocketManager.scheduleReconnect (lines 361-379): if the attempt
counter has reached the maximum it logs and returns (no state change, no
notification); otherwise it increments the counter and schedules a timer of
`reconnectDelay * attempts` (clearing any previous timer). -/
def scheduleReconnect (s : WsState) : WsState :=
  if s.maxReconnectAttempts ≤ s.reconnectAttempts then s
  else
    { s with
      reconnectAttempts := s.reconnectAttempts + 1,
      reconnectTimer := some (s.reconnectDelay * (s.reconnectAttempts + 1)) }

/-- WebSocketManager's `on('open')` handler (lines 98-103): status becomes
connected, the failure counter resets to zero, listeners are notified. -/
def onOpen (s : WsState) : WsState :=
  { s with
    status := .connected,
    reconnectAttempts := 0,
    connEvents := s.connEvents ++ [.connectedEvt] }

/-- WebSocketManager's `on('close')` handler (lines 105-110): status becomes
disconnected, listeners are notified, then a reconnect is scheduled. -/
def onClose (s : WsState) : WsState :=
  scheduleReconnect
    { s with status := .disconnected, connEvents := s.connEvents ++ [.disconnectedEvt] }

/-- WebSocketManager's `on('error')` handler (lines 112-117): status becomes
the error status, listeners get the routine error notification, then a
reconnect is scheduled. -/
def onError (s : WsState) (msg : String) : WsState :=
  scheduleReconnect
    { s with status := .errorStatus, connEvents := s.connEvents ++ [.errorEvt msg] }

/-- Iterated consecutive connection failures (each failure runs the error
handler). -/
def failTimes : Nat → WsState → WsState
  | 0, s => s
  | n + 1, s => failTimes n (onError s "connect failed")

/-- A WsState value with the constructor defaults of the class fields:
disconnected, no socket, no timer, 0 attempts, max 5, base delay 3000ms. -/
def initWsState : WsState :=
  { status := .disconnected, hasSocket := false, reconnectTimer := none,
    reconnectAttempts := 0, maxReconnectAttempts := 5, reconnectDelay := 3000,
    sentFrames := [], connEvents := [] }

/-- JSON values as produced by `JSON.parse`, plus `jundefined` for JavaScript
`undefined` (the value of a missing property access). -/
inductive JVal where
  | jnull
  | jundefined
  | jbool (b : Bool)
  | jnum (n : Int)
  | jstr (s : String)
  | jarr (elems : List JVal)
  | jobj (fields : List (String × JVal))

/-- JavaScript property access `v.k`: throws a TypeError when the base is
null or undefined, looks the key up on objects, and yields undefined on any
other base or a missing key. -/
def jsGet : JVal → String → Except String JVal
  | .jnull, _ => .error "TypeError: cannot read properties of null"
  | .jundefined, _ => .error "TypeError: cannot read properties of undefined"
  | .jobj fields, k =>
    match fields.find? (fun p => p.1 == k) with
    | some p => .ok p.2
    | none => .ok .jundefined
  | _, _ => .ok .jundefined

/-- ChatMessage.fromJson applied to an untyped `data` payload: every field
read is a property access on the same base object, so the call throws iff
the base is null or undefined; it always returns a message object (never
null). Only the throw behaviour matters for dispatch; the typed field
semantics are `ChatMsg.fromJson` above. -/
def chatMessageFromJsonRaw (json : JVal) : Except String JVal := do
  let _ ← jsGet json "id"
  let _ ← jsGet json "senderId"
  let _ ← jsGet json "receiverId"
  let _ ← jsGet json "message"
  let _ ← jsGet json "messageType"
  let _ ← jsGet json "isRead"
  let _ ← jsGet json "createdAt"
  let _ ← jsGet json "senderName"
  let _ ← jsGet json "senderAvatar"
  pure json

/-- Notifications fanned out to message listeners by the dispatcher. -/
inductive WsEffect where
  | notifyMessageReceived (data : JVal)
  | notifyMessageSent (data : JVal)
  | notifyMessageRead (data : JVal)
  | notifyOnlineStatus (data : JVal)
  | notifyOfflineMessages (msgs : List JVal)

/-- WebSocketManager.handlePrivateMessage: decodes the message (the
`if (message)` guard is always true, since fromJson returns an object) and
notifies listeners. -/
def handlePrivateMessageE (data : JVal) : Except String (List WsEffect) := do
  let _ ← chatMessageFromJsonRaw data
  pure [.notifyMessageReceived data]

/-- WebSocketManager.handleMessageSent: reads `data.success` and
`data.messageId` and notifies listeners. -/
def handleMessageSentE (data : JVal) : Except String (List WsEffect) := do
  let _ ← jsGet data "success"
  let _ ← jsGet data "messageId"
  pure [.notifyMessageSent data]

/-- WebSocketManager.handleMessageRead: reads `data.readerId` and notifies
listeners. -/
def handleMessageReadE (data : JVal) : Except String (List WsEffect) := do
  let _ ← jsGet data "readerId"
  pure [.notifyMessageRead data]

/-- WebSocketManager.handleOnlineStatus: notifies listeners with the raw
payload. -/
def handleOnlineStatusE (data : JVal) : Except String (List WsEffect) :=
  .ok [.notifyOnlineStatus data]

/-- WebSocketManager.handleOfflineMessages (lines 330-337):
`data.messages.map(ChatMessage.fromJson)` — throws when `data` is
null/undefined, or when `data.messages` is not an array (undefined has no
`.map`; on other non-arrays `.map` is not a function). The null filter after
the map never removes anything since fromJson never returns null. -/
def handleOfflineMessagesE (data : JVal) : Except String (List WsEffect) := do
  let msgsV ← jsGet data "messages"
  match msgsV with
  | .jarr elems => do
    let msgs ← elems.mapM chatMessageFromJsonRaw
    pure [.notifyOfflineMessages msgs]
  | _ => .error "TypeError: data.messages.map is not a function"

/-- Event tags with a dispatch case in `handleMessage`'s switch. -/
def recognizedEvents : List String :=
  ["receive_private_message", "message_sent", "message_read",
   "online_status", "offline_messages"]

/-- Switch on `message.event` (strict string comparison per case; a
non-string or unrecognized tag falls to the default branch, which only
logs). -/
def dispatchEvent (eventV : JVal) (data : JVal) : Except String (List WsEffect) :=
  match eventV with
  | .jstr e =>
    if e = "receive_private_message" then handlePrivateMessageE data
    else if e = "message_sent" then handleMessageSentE data
    else if e = "message_read" then handleMessageReadE data
    else if e = "online_status" then handleOnlineStatusE data
    else if e = "offline_messages" then handleOfflineMessagesE data
    else .ok []
  | _ => .ok []

/-- Body of the `try` block in WebSocketManager.handleMessage: reads
`message.event` and `message.data` and dispatches. -/
def handleMessageBody (v : JVal) : Except String (List WsEffect) := do
  let ev ← jsGet v "event"
  let data ← jsGet v "data"
  dispatchEvent ev data

/-- WebSocketManager.handleMessage (lines 254-286). The input is the result
of `JSON.parse` on the raw string (`none` when parsing threw). The whole
body is wrapped in try/catch, so any thrown error is logged and the frame
dropped; the function is total, returns to its caller normally on every
input, and never touches the connection status. -/
def handleMessage (raw : Option JVal) (st : WsStatus) : WsStatus × List WsEffect :=
  match raw with
  | none => (st, [])
  | some v =>
    match handleMessageBody v with
    | .ok effs => (st, effs)
    | .error _ => (st, [])

/-- State of the second WebSocketManager variant (embedded at the end of
common/push/PushManager.ets): it keeps a `messageQueue` of frames that could
not be sent and replays it on open. `sentFrames` is the transport sink. -/
structure QWsState where
  isConnected : Bool
  messageQueue : List WsFrame
  sentFrames : List WsFrame
  reconnectAttempts : Nat
deriving Repr, DecidableEq

/-- Queue-variant `emit` (PushManager.ets lines 573-593): when connected the
envelope goes to the transport; otherwise it is appended to `messageQueue`.
The send-exception path (which would also queue) is not modelled: sends
succeed when connected. -/
def emitQ (s : QWsState) (f : WsFrame) : QWsState :=
  if s.isConnected then { s with sentFrames := s.sentFrames ++ [f] }
  else { s with messageQueue := s.messageQueue ++ [f] }

/-- Loop body of `sendQueuedMessages`: re-emits each queued frame in order
(the state is connected, so each goes to the transport). -/
def sendQueuedLoop : QWsState → List WsFrame → QWsState
  | s, [] => s
  | s, f :: rest => sendQueuedLoop (emitQ s f) rest

/-- Queue-variant `sendQueuedMessages` (lines 637-652): iterates over the
queue emitting each entry, then clears the queue. -/
def sendQueuedMessages (s : QWsState) : QWsState :=
  let s1 := sendQueuedLoop s s.messageQueue
  { s1 with messageQueue := [] }

/-- Queue-variant `on('open')` handler (lines 498-510): marks connected,
resets the failure counter, then replays the queued messages. -/
def onOpenQ (s : QWsState) : QWsState :=
  sendQueuedMessages { s with isConnected := true, reconnectAttempts := 0 }

/-- A sequence of `emit` calls. -/
def emitAllQ (s : QWsState) : List WsFrame → QWsState :=
  List.foldl emitQ s

/-- ChatConversation as used by ChatManager.ets: keyed by `otherUserId`;
`lastMessage`/`lastMessageTime` are unset until the first update. The
embedding follows ChatManager.ets's own use of the constructor
`new ChatConversation(otherUserId, name)`: a fresh conversation starts with
`unreadCount = 0` and no last message. -/
structure ChatConv where
  otherUserId : Int
  otherUserName : String
  lastMessage : Option String
  lastMessageTime : Option Int
  unreadCount : Nat
deriving Repr, DecidableEq

/-- The per-peer message cache `Map<number, ChatMessage[]>`, as an ordered
association list (JS Map iteration order is insertion order). -/
abbrev MsgCache := List (Int × List ChatMsg)

/-- Map.get with the `|| []` default applied at every call site. -/
def cacheGet : MsgCache → Int → List ChatMsg
  | [], _ => []
  | (k, v) :: t, u => if k = u then v else cacheGet t u

/-- Map.set: overwrite the entry for the key, or append a new entry. -/
def cacheSet : MsgCache → Int → List ChatMsg → MsgCache
  | [], u, v => [(u, v)]
  | (k, w) :: t, u, v => if k = u then (u, v) :: t else (k, w) :: cacheSet t u v

/-- In-place mutation of the array stored under a key (forEach over
`map.get(k)` mutating the elements): when the key is absent nothing is
stored, so the cache is unchanged. -/
def cacheModify : MsgCache → Int → (List ChatMsg → List ChatMsg) → MsgCache
  | [], _, _ => []
  | (k, w) :: t, u, f => if k = u then (k, f w) :: t else (k, w) :: cacheModify t u f

/-- `conversationCache.find(c => c.otherUserId === k)`. -/
def findConv : List ChatConv → Int → Option ChatConv
  | [], _ => none
  | c :: t, k => if c.otherUserId = k then some c else findConv t k

/-- Removal of the first conversation with the key (the
`indexOf`/`splice(index, 1)` pair applied to the object `find` returned). -/
def removeFirstConv : List ChatConv → Int → List ChatConv
  | [], _ => []
  | c :: t, k => if c.otherUserId = k then t else c :: removeFirstConv t k

/-- ChatManager.updateConversationUnreadCount (lines 320-325): find the
conversation and set its unreadCount; no-op when absent. The first match is
the object `find` returns, so only it is mutated. -/
def setUnreadFirst : List ChatConv → Int → Nat → List ChatConv
  | [], _, _ => []
  | c :: t, k, n =>
    if c.otherUserId = k then { c with unreadCount := n } :: t
    else c :: setUnreadFirst t k n

/-- In-memory state of ChatManager.ets: the current user, the per-peer
message cache, and the conversation cache. Local storage writes mirror the
in-memory state and are not modelled separately. -/
structure ChatState where
  currentUserId : Int
  messageCache : MsgCache
  conversationCache : List ChatConv
deriving Repr, DecidableEq

/-- ChatManager state right after construction (empty caches). -/
def initChatState (uid : Int) : ChatState :=
  { currentUserId := uid, messageCache := [], conversationCache := [] }

/-- ChatManager.addMessageToCache (lines 284-288): get the array (or a new
empty one), push the message, store it back. Appends unconditionally — there
is no duplicate check. -/
def addMessageToCache (s : ChatState) (userId : Int) (m : ChatMsg) : ChatState :=
  { s with
    messageCache :=
      cacheSet s.messageCache userId (cacheGet s.messageCache userId ++ [m]) }

/-- ChatManager.updateConversationWithMessage (lines 293-315): find or
create the conversation for the other participant, move it to the front,
set lastMessage/lastMessageTime, and increment unreadCount iff the message
was not sent by the current user. The field assignments after the unshift
act on the (new or moved) head object, so they are folded into each
branch here. -/
def updateConversationWithMessage (uid : Int) (convs : List ChatConv) (m : ChatMsg) :
    List ChatConv :=
  let otherId := if m.senderId = uid then m.receiverId else m.senderId
  let inc : Nat := if m.senderId = uid then 0 else 1
  match findConv convs otherId with
  | none =>
    { otherUserId := otherId, otherUserName := jsOrStr m.senderName "未知用户",
      lastMessage := some m.message, lastMessageTime := some m.createdAt,
      unreadCount := 0 + inc } :: convs
  | some c =>
    { c with
      lastMessage := some m.message, lastMessageTime := some m.createdAt,
      unreadCount := c.unreadCount + inc } :: removeFirstConv convs otherId

/-- ChatManager.handleNewMessage (lines 242-254) without the storage/notify
side calls: cache the message under the sender's key, then update the
conversation. Offline batches go through the same path. -/
def handleNewMessage (s : ChatState) (m : ChatMsg) : ChatState :=
  let s1 := addMessageToCache s m.senderId m
  { s1 with
    conversationCache :=
      updateConversationWithMessage s1.currentUserId s1.conversationCache m }

/-- ChatManager.handleOfflineMessages (lines 259-263): each batch entry is
handled exactly like a live message. -/
def handleOfflineMessages (s : ChatState) (ms : List ChatMsg) : ChatState :=
  ms.foldl handleNewMessage s

/-- Marking pass of ChatManager.markAsRead over one bucket: messages from
the peer that are unread become read. -/
def markMessageListRead (p : Int) (ms : List ChatMsg) : List ChatMsg :=
  ms.map (fun m => if m.senderId = p ∧ m.isRead = false then { m with isRead := true } else m)

/-- Marking pass of ChatManager.handleMessageRead over one bucket: every
message from the reader becomes read (no unread check in this handler). -/
def markAllFromSender (p : Int) (ms : List ChatMsg) : List ChatMsg :=
  ms.map (fun m => if m.senderId = p then { m with isRead := true } else m)

/-- ChatManager.markAsRead (lines 112-131) without the storage/WebSocket
side calls: mark the cached messages from the peer read, then reset that
conversation's unread count to 0. -/
def markAsRead (s : ChatState) (senderId : Int) : ChatState :=
  let s1 :=
    { s with
      messageCache := cacheModify s.messageCache senderId (markMessageListRead senderId) }
  { s1 with conversationCache := setUnreadFirst s1.conversationCache senderId 0 }

/-- ChatManager.handleMessageRead (lines 268-279): an inbound read receipt
marks the cached messages from the reader as read. It does not touch the
conversation cache (the unread count is left as is). -/
def handleMessageRead (s : ChatState) (readerId : Int) : ChatState :=
  { s with
    messageCache := cacheModify s.messageCache readerId (markAllFromSender readerId) }

/-- ChatManager.sendMessage (lines 89-107), store effect only: build the
local pending message (no server id yet) and cache it under the receiver's
key. It does not update the conversation cache. -/
def sendMessage (s : ChatState) (receiverId : Int) (text : String) (now : Int) : ChatState :=
  let localMessage : ChatMsg :=
    { id := 0, senderId := s.currentUserId, receiverId := receiverId,
      message := text, messageType := "text", isRead := false,
      createdAt := now, senderName := some "我", senderAvatar := none }
  addMessageToCache s receiverId localMessage

/-- Store operations reachable from the dispatched events and UI intents. -/
inductive ChatOp where
  | ingest (m : ChatMsg)
  | offlineBatch (ms : List ChatMsg)
  | markRead (p : Int)
  | peerRead (p : Int)
  | send (receiverId : Int) (text : String) (now : Int)

/-- Apply one operation to the store. -/
def applyOp (s : ChatState) : ChatOp → ChatState
  | .ingest m => handleNewMessage s m
  | .offlineBatch ms => handleOfflineMessages s ms
  | .markRead p => markAsRead s p
  | .peerRead p => handleMessageRead s p
  | .send r t now => sendMessage s r t now

/-- Run a sequence of operations. -/
def runOps (s : ChatState) (ops : List ChatOp) : ChatState :=
  ops.foldl applyOp s

/-- Keys of the conversation cache. -/
def convKeys (l : List ChatConv) : List Int :=
  l.map (fun c => c.otherUserId)

/-- Unread count the store reports for a peer (0 when no conversation). -/
def unreadOf (s : ChatState) (p : Int) : Nat :=
  match findConv s.conversationCache p with
  | some c => c.unreadCount
  | none => 0

/-- Number of unread messages from a peer in that peer's bucket. -/
def unreadMsgCountOf (s : ChatState) (p : Int) : Nat :=
  ((cacheGet s.messageCache p).filter (fun m => m.senderId = p ∧ m.isRead = false)).length

/-- Number of messages in one bucket matching the pending-identity key
(senderId, receiverId, createdAt, body). -/
def countBucket (ms : List ChatMsg) (sid rid : Int) (t : Int) (body : String) : Nat :=
  (ms.filter (fun m =>
    m.senderId = sid ∧ m.receiverId = rid ∧ m.createdAt = t ∧ m.message = body)).length

/-- Number of messages in the whole store matching the pending-identity
key. -/
def countStore (s : ChatState) (sid rid : Int) (t : Int) (body : String) : Nat :=
  (s.messageCache.map (fun p => countBucket p.2 sid rid t body)).sum

/-- Unread count reported by a conversation list for a peer (0 when the
peer has no conversation). -/
def unreadInList (l : List ChatConv) (p : Int) : Nat :=
  match findConv l p with
  | some c => c.unreadCount
  | none => 0

/-- Concrete outbound frame. -/
def frame1 : WsFrame := { event := "send_private_message", data := "payloadA" }

/-- Second concrete outbound frame. -/
def frame2 : WsFrame := { event := "mark_as_read", data := "payloadB" }

/-- Queue-variant state before the first connection: disconnected, empty
queue. -/
def qInitState : QWsState :=
  { isConnected := false, messageQueue := [], sentFrames := [], reconnectAttempts := 0 }

/-- WsState after the failure counter has reached the maximum (5). -/
def exhaustedWsState : WsState :=
  { status := .connecting, hasSocket := true, reconnectTimer := none,
    reconnectAttempts := 5, maxReconnectAttempts := 5, reconnectDelay := 3000,
    sentFrames := [], connEvents := [] }

/-- A well-formed envelope whose event tag has no dispatch case. -/
def unknownEventFrame : JVal :=
  .jobj [("event", .jstr "presence_update"), ("data", .jnull)]

/-- Concrete inbound message from peer 7 to user 1. -/
def msg7A : ChatMsg :=
  { id := 1, senderId := 7, receiverId := 1, message := "hi",
    messageType := "text", isRead := false, createdAt := 1000,
    senderName := some "peer7", senderAvatar := none }

/-- The same message after being marked read. -/
def msg7read : ChatMsg := { msg7A with isRead := true }

/-- An offline batch of three messages from peer 7 to user 1. -/
def batch7 : List ChatMsg :=
  [{ msg7A with id := 1, createdAt := 1000 },
   { msg7A with id := 2, createdAt := 1001, message := "second" },
   { msg7A with id := 3, createdAt := 1002, message := "third" }]

/-- Concrete store state for user 1 with one unread message from peer 7 and
the matching conversation. -/
def cs9 : ChatState :=
  { currentUserId := 1,
    messageCache := [(7, [msg7A])],
    conversationCache :=
      [{ otherUserId := 7, otherUserName := "peer7", lastMessage := some "hi",
         lastMessageTime := some 1000, unreadCount := 1 }] }

/-- Server-confirmed counterpart of a pending send from user 1 to peer 2
(same senderId, receiverId, createdAt and body; the server id assigned). -/
def mConfirmed : ChatMsg :=
  { id := 10, senderId := 1, receiverId := 2, message := "hello",
    messageType := "text", isRead := false, createdAt := 2000,
    senderName := some "me", senderAvatar := none }

/-- A message whose senderName and senderAvatar are defined and whose
createdAt is nonzero, but whose messageType is the empty string. -/
def msgTypeEmptyMsg : ChatMsg :=
  { id := 1, senderId := 2, receiverId := 3, message := "hello",
    messageType := "", isRead := false, createdAt := 5,
    senderName := some "alice", senderAvatar := some "ava" }

/-- A message (with several falsy-but-present fields) satisfying the
round-trip hypotheses. -/
def okMsg : ChatMsg :=
  { id := 0, senderId := 2, receiverId := 3, message := "",
    messageType := "text", isRead := true, createdAt := 5,
    senderName := some "", senderAvatar := some "a" }

/-
THEOREMS. Helper lemmas first, then one theorem per claim (with its
counterexample and witness where applicable).
-/

/-- Field effect of the error handler when the counter is below the cap. -/
theorem onError_fields (s : WsState) (msg : String)
    (hlt : s.reconnectAttempts < s.maxReconnectAttempts) :
    (onError s msg).reconnectAttempts = s.reconnectAttempts + 1 ∧
    (onError s msg).maxReconnectAttempts = s.maxReconnectAttempts ∧
    (onError s msg).reconnectDelay = s.reconnectDelay ∧
    (onError s msg).reconnectTimer = some (s.reconnectDelay * (s.reconnectAttempts + 1)) := by
  have h : ¬ s.maxReconnectAttempts ≤ s.reconnectAttempts := by omega
  simp [onError, scheduleReconnect, h]

/-- After n consecutive failures starting below the cap, the attempt counter
has advanced by n, base delay and cap are unchanged, and (for n ≥ 1) the
last scheduled timer is base * (initial attempts + n). -/
theorem failTimes_spec :
    ∀ (n : Nat) (s : WsState), s.reconnectAttempts + n ≤ s.maxReconnectAttempts →
    (failTimes n s).reconnectAttempts = s.reconnectAttempts + n ∧
    (failTimes n s).reconnectDelay = s.reconnectDelay ∧
    (1 ≤ n → (failTimes n s).reconnectTimer
      = some (s.reconnectDelay * (s.reconnectAttempts + n))) := by
  intro n
  induction n with
  | zero => intro s h; simp [failTimes]
  | succ k ih =>
    intro s h
    obtain ⟨e1, e2, e3, e4⟩ := onError_fields s "connect failed" (by omega)
    have hstep : failTimes (k + 1) s = failTimes k (onError s "connect failed") := rfl
    obtain ⟨ha, hd, ht⟩ := ih (onError s "connect failed") (by rw [e1, e2]; omega)
    rw [hstep]
    refine ⟨by rw [ha, e1]; omega, by rw [hd, e3], ?_⟩
    intro _
    rcases Nat.eq_zero_or_pos k with hk | hk
    · subst hk
      show (onError s "connect failed").reconnectTimer
        = some (s.reconnectDelay * (s.reconnectAttempts + 1))
      rw [e4]
    · rw [ht hk, e3, e1]
      have harith : s.reconnectAttempts + 1 + k = s.reconnectAttempts + (k + 1) := by omega
      rw [harith]

/-- Claim C6: for every n ≥ 1, after n consecutive connection failures
(starting from a reset counter, with n within the retry cap — beyond it no
further attempt is scheduled at all) the delay scheduled before the next
reconnection attempt is at least reconnectDelay * n, and a successful open
resets the consecutive-failure counter to 0. The code schedules exactly
reconnectDelay * n. -/
theorem c6_backoff_delay_and_reset :
    (∀ (s : WsState) (n : Nat), s.reconnectAttempts = 0 → 1 ≤ n →
      n ≤ s.maxReconnectAttempts →
      ∃ d, (failTimes n s).reconnectTimer = some d ∧ s.reconnectDelay * n ≤ d) ∧
    (∀ s : WsState, (onOpen s).reconnectAttempts = 0) := by
  constructor
  · intro s n h0 h1 hle
    obtain ⟨-, -, ht⟩ := failTimes_spec n s (by omega)
    refine ⟨s.reconnectDelay * n, ?_, le_refl _⟩
    rw [ht h1, h0, Nat.zero_add]
  · intro s; rfl

/-- Witness for C6 at a concrete state: two consecutive failures from the
constructor defaults schedule a delay of at least 3000 * 2, and an open
resets the counter. -/
theorem c6_witness :
    (∃ d, (failTimes 2 initWsState).reconnectTimer = some d
      ∧ initWsState.reconnectDelay * 2 ≤ d) ∧
    (onOpen initWsState).reconnectAttempts = 0 :=
  ⟨c6_backoff_delay_and_reset.1 initWsState 2 rfl (by decide) (by decide),
   c6_backoff_delay_and_reset.2 initWsState⟩

/-- Counterexample to claim C7: on the failure that finds the counter at the
cap (5 of 5), the manager does not transition to Disconnected (the error
handler leaves status at the error value and scheduleReconnect changes
nothing), schedules nothing, and surfaces only the routine per-failure error
notification — no fatal connectivity error. It stops silently. -/
theorem c7_counterexample_silent_stop :
    (onError exhaustedWsState "connect failed").status ≠ WsStatus.disconnected ∧
    (onError exhaustedWsState "connect failed").status = WsStatus.errorStatus ∧
    (onError exhaustedWsState "connect failed").reconnectTimer = none ∧
    (onError exhaustedWsState "connect failed").connEvents
      = [ConnEvent.errorEvt "connect failed"] := by
  refine ⟨by decide, rfl, rfl, rfl⟩

/-- Claim C7 as amended: when the consecutive-failure count has reached the
configured maximum, scheduleReconnect stops retrying silently — it performs
no state change at all (no status transition, no timer, no notification);
the only failure notifications subscribers ever see are the routine
per-failure ones from the close/error handlers. -/
theorem c7_amended_exhausted_retries_silent :
    ∀ s : WsState, s.maxReconnectAttempts ≤ s.reconnectAttempts →
    scheduleReconnect s = s := by
  intro s h
  simp [scheduleReconnect, h]

/-- Witness for the amended C7 at a concrete exhausted state. -/
theorem c7_amended_witness : scheduleReconnect exhaustedWsState = exhaustedWsState :=
  c7_amended_exhausted_retries_silent exhaustedWsState (by decide)

/-- Counterexample to claim C8: in the disconnected state, emit returns a
resolved (non-error) result to the caller — the caller receives no
NotConnected error — and the frame is silently not sent. -/
theorem c8_counterexample_resolved_not_error :
    (emitWs initWsState frame1).2 = EmitOutcome.resolvedUnit ∧
    (emitWs initWsState frame1).2.isError = false ∧
    (emitWs initWsState frame1).1.sentFrames = [] := by
  refine ⟨rfl, rfl, rfl⟩

/-- Claim C8 as amended: for every state other than Connected, emit returns
immediately with a resolved (success) result, sends nothing, changes no
state, and buffers nothing — the frame is dropped with only a log line; no
NotConnected error value reaches the caller. -/
theorem c8_amended_fail_silent_drop :
    ∀ (s : WsState) (f : WsFrame), s.status ≠ WsStatus.connected →
    emitWs s f = (s, EmitOutcome.resolvedUnit) := by
  intro s f h
  unfold emitWs
  rw [if_pos (Or.inl h)]

/-- Witness for the amended C8 at a concrete disconnected state. -/
theorem c8_amended_witness : emitWs initWsState frame1 = (initWsState, EmitOutcome.resolvedUnit) :=
  c8_amended_fail_silent_drop initWsState frame1 (by decide)

/-- Counterexample to claim C2 (against the cited
common/api/WebSocketManager.ets implementation): a frame sent while
disconnected leaves the state completely unchanged — nothing is queued — so
after the next transition to Connected the transport has received nothing.
The frame is lost, refuting FIFO delivery with no loss. -/
theorem c2_counterexample_dropped_frame :
    (emitWs initWsState frame1).1 = initWsState ∧
    (onOpen (emitWs initWsState frame1).1).status = WsStatus.connected ∧
    (onOpen (emitWs initWsState frame1).1).sentFrames = [] := by
  refine ⟨rfl, rfl, rfl⟩

/-- Emitting a list of frames while disconnected only appends them, in call
order, to the message queue. -/
theorem emitAllQ_disconnected :
    ∀ (fs : List WsFrame) (s : QWsState), s.isConnected = false →
    emitAllQ s fs = { s with messageQueue := s.messageQueue ++ fs } := by
  intro fs
  induction fs with
  | nil => intro s h; simp [emitAllQ]
  | cons f rest ih =>
    intro s h
    have hstep : emitAllQ s (f :: rest)
        = emitAllQ { s with messageQueue := s.messageQueue ++ [f] } rest := by
      simp [emitAllQ, emitQ, h]
    rw [hstep, ih _ (by simp [h])]
    simp

/-- Replaying a list of frames while connected appends them, in order, to
the transport sink without touching the queue. -/
theorem sendQueuedLoop_connected :
    ∀ (fs : List WsFrame) (s : QWsState), s.isConnected = true →
    sendQueuedLoop s fs = { s with sentFrames := s.sentFrames ++ fs } := by
  intro fs
  induction fs with
  | nil => intro s h; simp [sendQueuedLoop]
  | cons f rest ih =>
    intro s h
    have hstep : sendQueuedLoop s (f :: rest)
        = sendQueuedLoop { s with sentFrames := s.sentFrames ++ [f] } rest := by
      simp [sendQueuedLoop, emitQ, h]
    rw [hstep, ih _ (by simp [h])]
    simp

/-- Claim C2 as amended: in the queue-based WebSocketManager variant
(embedded in common/push/PushManager.ets), every frame emitted while the
connection is down is enqueued, and on the next transition to Connected the
whole queue is replayed to the transport oldest-first — the transport
receives exactly the previously queued frames followed by the new emits in
their original call order (FIFO, no reordering, no loss) and the queue is
cleared. In the cited common/api/WebSocketManager.ets variant, by contrast,
such frames are dropped (see the counterexample). -/
theorem c2_amended_queue_fifo_replay :
    ∀ (s : QWsState) (fs : List WsFrame), s.isConnected = false →
    (onOpenQ (emitAllQ s fs)).sentFrames = s.sentFrames ++ (s.messageQueue ++ fs) ∧
    (onOpenQ (emitAllQ s fs)).messageQueue = [] := by
  intro s fs h
  rw [emitAllQ_disconnected fs s h]
  unfold onOpenQ sendQueuedMessages
  rw [sendQueuedLoop_connected _ _ rfl]
  simp

/-- Witness for the amended C2: two frames emitted while disconnected reach
the transport in call order after the open. -/
theorem c2_amended_witness :
    (onOpenQ (emitAllQ qInitState [frame1, frame2])).sentFrames
      = qInitState.sentFrames ++ (qInitState.messageQueue ++ [frame1, frame2]) ∧
    (onOpenQ (emitAllQ qInitState [frame1, frame2])).messageQueue = [] :=
  c2_amended_queue_fifo_replay qInitState [frame1, frame2] rfl

/-- Claim C5: inbound frame handling is total. handleMessage is a total
function (the try/catch around the body means a thrown error is observed
only as the error branch of handleMessageBody, never by the caller): for
every raw input it returns normally, never changes the connection status
(it has no close effect at all), and drops malformed frames — invalid JSON,
a frame whose body throws (e.g. null data or a non-array offline payload),
or a recognized-looking envelope with an unrecognized event tag — with no
listener notification (logged only). -/
theorem c5_handle_message_total_and_drops :
    (∀ (raw : Option JVal) (st : WsStatus), (handleMessage raw st).1 = st) ∧
    (∀ st : WsStatus, handleMessage none st = (st, [])) ∧
    (∀ (st : WsStatus) (v : JVal) (err : String),
      handleMessageBody v = Except.error err → handleMessage (some v) st = (st, [])) ∧
    (∀ (st : WsStatus) (v : JVal) (e : String) (dataV : JVal),
      jsGet v "event" = Except.ok (JVal.jstr e) →
      jsGet v "data" = Except.ok dataV →
      e ∉ recognizedEvents →
      handleMessage (some v) st = (st, [])) := by
  refine ⟨?_, ?_, ?_, ?_⟩
  · intro raw st
    cases raw with
    | none => rfl
    | some v =>
      cases h : handleMessageBody v <;> simp [handleMessage, h]
  · intro st; rfl
  · intro st v err herr
    simp [handleMessage, herr]
  · intro st v e dataV hev hdata hne
    simp only [recognizedEvents, List.mem_cons, List.not_mem_nil, or_false, not_or] at hne
    obtain ⟨h1, h2, h3, h4, h5⟩ := hne
    have hbody : handleMessageBody v = Except.ok [] := by
      unfold handleMessageBody
      rw [hev, hdata]
      simp [dispatchEvent, bind, Except.bind, h1, h2, h3, h4, h5]
    simp [handleMessage, hbody]

/-- Witness for C5: a concrete frame with the unrecognized event tag
"presence_update" is dropped without a notification, and a parse failure is
dropped, both leaving the status untouched. -/
theorem c5_witness :
    (handleMessage (some unknownEventFrame) WsStatus.connected).1 = WsStatus.connected ∧
    handleMessage none WsStatus.connected = (WsStatus.connected, []) ∧
    handleMessage (some unknownEventFrame) WsStatus.connected = (WsStatus.connected, []) :=
  ⟨c5_handle_message_total_and_drops.1 (some unknownEventFrame) WsStatus.connected,
   c5_handle_message_total_and_drops.2.1 WsStatus.connected,
   c5_handle_message_total_and_drops.2.2.2 WsStatus.connected unknownEventFrame
     "presence_update" JVal.jnull rfl rfl (by decide)⟩

/-- Reading back the bucket written by cacheSet. -/
theorem cacheGet_cacheSet_self :
    ∀ (c : MsgCache) (u : Int) (v : List ChatMsg), cacheGet (cacheSet c u v) u = v := by
  intro c u v
  induction c with
  | nil => simp [cacheSet, cacheGet]
  | cons p t ih =>
    obtain ⟨k, w⟩ := p
    by_cases h : k = u
    · simp [cacheSet, cacheGet, h]
    · simp [cacheSet, cacheGet, h, ih]

/-- cacheModify applied under the modified key, for modifiers that fix the
empty list (so an absent bucket stays absent). -/
theorem cacheGet_cacheModify_self :
    ∀ (c : MsgCache) (u : Int) (f : List ChatMsg → List ChatMsg), f [] = [] →
    cacheGet (cacheModify c u f) u = f (cacheGet c u) := by
  intro c u f hf
  induction c with
  | nil => simp [cacheModify, cacheGet, hf]
  | cons p t ih =>
    obtain ⟨k, w⟩ := p
    by_cases h : k = u
    · simp [cacheModify, cacheGet, h]
    · simp [cacheModify, cacheGet, h, ih]

/-- cacheModify leaves every other bucket unchanged. -/
theorem cacheGet_cacheModify_other :
    ∀ (c : MsgCache) (u q : Int) (f : List ChatMsg → List ChatMsg), q ≠ u →
    cacheGet (cacheModify c u f) q = cacheGet c q := by
  intro c u q f hq
  induction c with
  | nil => simp [cacheModify]
  | cons p t ih =>
    obtain ⟨k, w⟩ := p
    by_cases h : k = u
    · subst h
      have : ¬ k = q := fun hkq => hq (hkq.symm.trans rfl)
      simp [cacheModify, cacheGet, this]
    · by_cases h2 : k = q
      · simp [cacheModify, cacheGet, h, h2, hq]
      · simp [cacheModify, cacheGet, h, h2, ih]

/-- Every message from the peer is read after the markAsRead pass. -/
theorem markMessageListRead_reads :
    ∀ (p : Int) (ms : List ChatMsg) (m : ChatMsg), m ∈ markMessageListRead p ms →
    m.senderId = p → m.isRead = true := by
  intro p ms m hm hs
  simp only [markMessageListRead, List.mem_map] at hm
  obtain ⟨m0, hm0, heq⟩ := hm
  by_cases hc : m0.senderId = p ∧ m0.isRead = false
  · rw [if_pos hc] at heq
    rw [← heq]
  · rw [if_neg hc] at heq
    rw [← heq] at hs ⊢
    rcases Bool.eq_false_or_eq_true m0.isRead with hr | hr
    · exact hr
    · exact absurd ⟨hs, hr⟩ hc

/-- setUnreadFirst under the targeted key: the found conversation gets the
new count, everything else is untouched. -/
theorem findConv_setUnreadFirst_self :
    ∀ (l : List ChatConv) (p : Int) (n : Nat),
    findConv (setUnreadFirst l p n) p
      = (findConv l p).map (fun c => { c with unreadCount := n }) := by
  intro l p n
  induction l with
  | nil => simp [setUnreadFirst, findConv]
  | cons c t ih =>
    by_cases h : c.otherUserId = p
    · simp [setUnreadFirst, findConv, h]
    · simp [setUnreadFirst, findConv, h, ih]

/-- setUnreadFirst leaves every other conversation unchanged. -/
theorem findConv_setUnreadFirst_other :
    ∀ (l : List ChatConv) (p : Int) (n : Nat) (q : Int), q ≠ p →
    findConv (setUnreadFirst l p n) q = findConv l q := by
  intro l p n q hq
  induction l with
  | nil => simp [setUnreadFirst]
  | cons c t ih =>
    have hpq : ¬ p = q := fun hx => hq hx.symm
    by_cases h : c.otherUserId = p
    · simp [setUnreadFirst, findConv, h, hpq]
    · by_cases h2 : c.otherUserId = q
      · simp [setUnreadFirst, findConv, h, h2, hq]
      · simp [setUnreadFirst, findConv, h, h2, ih]

/-- Claim C9: markAsRead(p) marks every cached message from p as read,
resets p's conversation unread count to 0 (and only rewrites that one
conversation's count), and leaves every other peer's message bucket and
conversation entry entirely unchanged. -/
theorem c9_mark_as_read_effect :
    ∀ (s : ChatState) (p : Int),
    (∀ m ∈ cacheGet (markAsRead s p).messageCache p, m.senderId = p → m.isRead = true) ∧
    unreadOf (markAsRead s p) p = 0 ∧
    (∀ c, findConv s.conversationCache p = some c →
      findConv (markAsRead s p).conversationCache p = some { c with unreadCount := 0 }) ∧
    (∀ q, q ≠ p → cacheGet (markAsRead s p).messageCache q = cacheGet s.messageCache q) ∧
    (∀ q, q ≠ p →
      findConv (markAsRead s p).conversationCache q = findConv s.conversationCache q) := by
  intro s p
  have hcache : (markAsRead s p).messageCache
      = cacheModify s.messageCache p (markMessageListRead p) := rfl
  have hconvs : (markAsRead s p).conversationCache
      = setUnreadFirst s.conversationCache p 0 := rfl
  refine ⟨?_, ?_, ?_, ?_, ?_⟩
  · intro m hm hs
    rw [hcache, cacheGet_cacheModify_self _ _ _ rfl] at hm
    exact markMessageListRead_reads p _ m hm hs
  · unfold unreadOf
    rw [hconvs, findConv_setUnreadFirst_self]
    cases findConv s.conversationCache p <;> rfl
  · intro c hc
    rw [hconvs, findConv_setUnreadFirst_self, hc]
    rfl
  · intro q hq
    rw [hcache, cacheGet_cacheModify_other _ _ _ _ hq]
  · intro q hq
    rw [hconvs, findConv_setUnreadFirst_other _ _ _ _ hq]

/-- Witness for C9 at a concrete state: the message from peer 7 is read
afterwards, peer 7's unread count is 0, and peer 2's bucket and conversation
lookups are untouched. -/
theorem c9_witness :
    (msg7read.senderId = 7 → msg7read.isRead = true) ∧
    unreadOf (markAsRead cs9 7) 7 = 0 ∧
    cacheGet (markAsRead cs9 7).messageCache 2 = cacheGet cs9.messageCache 2 ∧
    findConv (markAsRead cs9 7).conversationCache 2 = findConv cs9.conversationCache 2 :=
  ⟨(c9_mark_as_read_effect cs9 7).1 msg7read (by decide),
   (c9_mark_as_read_effect cs9 7).2.1,
   (c9_mark_as_read_effect cs9 7).2.2.2.1 2 (by decide),
   (c9_mark_as_read_effect cs9 7).2.2.2.2 2 (by decide)⟩

/-- A successful findConv returns a conversation with the searched key. -/
theorem findConv_key :
    ∀ (l : List ChatConv) (k : Int) (c : ChatConv), findConv l k = some c →
    c.otherUserId = k := by
  intro l k c h
  induction l with
  | nil => simp [findConv] at h
  | cons c0 t ih =>
    by_cases h0 : c0.otherUserId = k
    · rw [findConv, if_pos h0] at h
      cases h
      exact h0
    · rw [findConv, if_neg h0] at h
      exact ih h

/-- Each pass of updateConversationWithMessage over an inbound message
(sender is not the local user) increments the reported unread count of the
sender's conversation by exactly one. -/
theorem unreadInList_update_inbound :
    ∀ (uid : Int) (l : List ChatConv) (m : ChatMsg), m.senderId ≠ uid →
    unreadInList (updateConversationWithMessage uid l m) m.senderId
      = unreadInList l m.senderId + 1 := by
  intro uid l m h
  unfold updateConversationWithMessage
  rw [if_neg h, if_neg h]
  cases hf : findConv l m.senderId with
  | none =>
    simp only [unreadInList, hf]
    simp [findConv]
  | some c =>
    have hk := findConv_key l m.senderId c hf
    simp only [unreadInList, hf]
    simp [findConv, hk]

/-- Counterexample to claim C1: ingesting the same confirmed message twice
is observably different from ingesting it once — the second ingest appends a
duplicate row and bumps the unread count to 2. -/
theorem c1_counterexample_double_ingest :
    runOps (initChatState 1) [ChatOp.ingest msg7A, ChatOp.ingest msg7A]
      ≠ runOps (initChatState 1) [ChatOp.ingest msg7A] ∧
    unreadOf (runOps (initChatState 1) [ChatOp.ingest msg7A, ChatOp.ingest msg7A]) 7 = 2 ∧
    unreadOf (runOps (initChatState 1) [ChatOp.ingest msg7A]) 7 = 1 ∧
    (cacheGet (runOps (initChatState 1)
      [ChatOp.ingest msg7A, ChatOp.ingest msg7A]).messageCache 7).length = 2 := by
  refine ⟨by decide, by decide, by decide, by decide⟩

/-- Claim C1 as amended: ingest is not idempotent. Every ingest of an
inbound message appends a fresh row to the sender's bucket (no duplicate
check) and increments the peer's unreadCount by one, so a duplicated
delivery double-counts; in particular the 3-message offline batch from peer
7 delivered twice yields unreadCount 6 (not 3) and six rows. -/
theorem c1_amended_ingest_appends_and_increments :
    (∀ (s : ChatState) (m : ChatMsg), m.senderId ≠ s.currentUserId →
      cacheGet (handleNewMessage s m).messageCache m.senderId
        = cacheGet s.messageCache m.senderId ++ [m] ∧
      unreadOf (handleNewMessage s m) m.senderId = unreadOf s m.senderId + 1) ∧
    unreadOf (handleOfflineMessages (handleOfflineMessages (initChatState 1) batch7) batch7) 7
      = 6 ∧
    (cacheGet (handleOfflineMessages (handleOfflineMessages (initChatState 1) batch7)
      batch7).messageCache 7).length = 6 := by
  refine ⟨?_, by decide, by decide⟩
  intro s m h
  constructor
  · have hc : (handleNewMessage s m).messageCache
        = cacheSet s.messageCache m.senderId (cacheGet s.messageCache m.senderId ++ [m]) :=
      rfl
    rw [hc, cacheGet_cacheSet_self]
  · have hconvs : (handleNewMessage s m).conversationCache
        = updateConversationWithMessage s.currentUserId s.conversationCache m := rfl
    show unreadInList (handleNewMessage s m).conversationCache m.senderId
      = unreadInList s.conversationCache m.senderId + 1
    rw [hconvs]
    exact unreadInList_update_inbound s.currentUserId s.conversationCache m h

/-- Witness for the amended C1 at a concrete state and message. -/
theorem c1_amended_witness :
    cacheGet (handleNewMessage (initChatState 1) msg7A).messageCache msg7A.senderId
      = cacheGet (initChatState 1).messageCache msg7A.senderId ++ [msg7A] ∧
    unreadOf (handleNewMessage (initChatState 1) msg7A) msg7A.senderId
      = unreadOf (initChatState 1) msg7A.senderId + 1 :=
  c1_amended_ingest_appends_and_increments.1 (initChatState 1) msg7A (by decide)

/-- When findConv misses, the key is not among the conversation keys. -/
theorem not_mem_convKeys_of_findConv_none :
    ∀ (l : List ChatConv) (k : Int), findConv l k = none → k ∉ convKeys l := by
  intro l k h
  induction l with
  | nil => simp [convKeys]
  | cons c t ih =>
    by_cases h0 : c.otherUserId = k
    · rw [findConv, if_pos h0] at h
      cases h
    · rw [findConv, if_neg h0] at h
      simp only [convKeys, List.map_cons, List.mem_cons]
      rintro (hk | hk)
      · exact h0 hk.symm
      · exact ih h hk

/-- Keys surviving removeFirstConv were keys of the original list. -/
theorem convKeys_removeFirstConv_sub :
    ∀ (l : List ChatConv) (k x : Int), x ∈ convKeys (removeFirstConv l k) →
    x ∈ convKeys l := by
  intro l k x hx
  induction l with
  | nil => simpa [removeFirstConv] using hx
  | cons c t ih =>
    by_cases h0 : c.otherUserId = k
    · rw [removeFirstConv, if_pos h0] at hx
      simp only [convKeys, List.map_cons, List.mem_cons]
      exact Or.inr hx
    · rw [removeFirstConv, if_neg h0] at hx
      simp only [convKeys, List.map_cons, List.mem_cons] at hx ⊢
      rcases hx with hx | hx
      · exact Or.inl hx
      · exact Or.inr (ih hx)

/-- removeFirstConv preserves key distinctness. -/
theorem nodup_convKeys_removeFirstConv :
    ∀ (l : List ChatConv) (k : Int), (convKeys l).Nodup →
    (convKeys (removeFirstConv l k)).Nodup := by
  intro l k h
  induction l with
  | nil => simpa [removeFirstConv] using h
  | cons c t ih =>
    simp only [convKeys, List.map_cons, List.nodup_cons] at h
    by_cases h0 : c.otherUserId = k
    · rw [removeFirstConv, if_pos h0]
      exact h.2
    · rw [removeFirstConv, if_neg h0]
      simp only [convKeys, List.map_cons, List.nodup_cons]
      exact ⟨fun hx => h.1 (convKeys_removeFirstConv_sub t k _ hx), ih h.2⟩

/-- With distinct keys, the removed key is gone after removeFirstConv. -/
theorem key_not_mem_removeFirstConv :
    ∀ (l : List ChatConv) (k : Int), (convKeys l).Nodup →
    k ∉ convKeys (removeFirstConv l k) := by
  intro l k h
  induction l with
  | nil => simp [removeFirstConv, convKeys]
  | cons c t ih =>
    simp only [convKeys, List.map_cons, List.nodup_cons] at h
    by_cases h0 : c.otherUserId = k
    · rw [removeFirstConv, if_pos h0]
      rw [← h0]
      exact h.1
    · rw [removeFirstConv, if_neg h0]
      simp only [convKeys, List.map_cons, List.mem_cons]
      rintro (hk | hk)
      · exact h0 hk.symm
      · exact ih h.2 hk

/-- updateConversationWithMessage preserves key distinctness. -/
theorem nodup_convKeys_update :
    ∀ (uid : Int) (l : List ChatConv) (m : ChatMsg), (convKeys l).Nodup →
    (convKeys (updateConversationWithMessage uid l m)).Nodup := by
  intro uid l m h
  simp only [updateConversationWithMessage]
  cases hf : findConv l (if m.senderId = uid then m.receiverId else m.senderId) with
  | none =>
    simp only [convKeys, List.map_cons, List.nodup_cons]
    exact ⟨not_mem_convKeys_of_findConv_none l _ hf, h⟩
  | some c =>
    have hk := findConv_key l _ c hf
    simp only [convKeys, List.map_cons, List.nodup_cons]
    constructor
    · show c.otherUserId ∉ convKeys (removeFirstConv l _)
      rw [hk]
      exact key_not_mem_removeFirstConv l _ h
    · exact nodup_convKeys_removeFirstConv l _ h

/-- setUnreadFirst does not change the key sequence. -/
theorem convKeys_setUnreadFirst :
    ∀ (l : List ChatConv) (k : Int) (n : Nat),
    convKeys (setUnreadFirst l k n) = convKeys l := by
  intro l k n
  induction l with
  | nil => rfl
  | cons c t ih =>
    by_cases h0 : c.otherUserId = k
    · simp [setUnreadFirst, convKeys, h0]
    · simp only [setUnreadFirst, if_neg h0, convKeys, List.map_cons]
      rw [show List.map (fun c => c.otherUserId) (setUnreadFirst t k n) = convKeys (setUnreadFirst t k n) from rfl, ih]
      rfl

/-- Every store operation preserves key distinctness of the conversation
cache. -/
theorem nodup_convKeys_applyOp :
    ∀ (s : ChatState) (op : ChatOp), (convKeys s.conversationCache).Nodup →
    (convKeys (applyOp s op).conversationCache).Nodup := by
  intro s op h
  cases op with
  | ingest m => exact nodup_convKeys_update s.currentUserId s.conversationCache m h
  | offlineBatch ms =>
    show (convKeys (handleOfflineMessages s ms).conversationCache).Nodup
    induction ms generalizing s with
    | nil => exact h
    | cons m rest ih =>
      exact ih (handleNewMessage s m)
        (nodup_convKeys_update s.currentUserId s.conversationCache m h)
  | markRead p =>
    show (convKeys (setUnreadFirst s.conversationCache p 0)).Nodup
    rw [convKeys_setUnreadFirst]
    exact h
  | peerRead p => exact h
  | send r t now => exact h

/-- Counterexample to claim C3: the reachable state obtained by ingesting
one message from peer 7 and then handling an inbound read receipt from peer
7 reports unreadCount 1 while zero messages from peer 7 are unread —
handleMessageRead marks the messages read but never adjusts the
conversation's unreadCount. -/
theorem c3_counterexample_unread_count_desync :
    unreadOf (runOps (initChatState 1) [ChatOp.ingest msg7A, ChatOp.peerRead 7]) 7 = 1 ∧
    unreadMsgCountOf (runOps (initChatState 1) [ChatOp.ingest msg7A, ChatOp.peerRead 7]) 7
      = 0 := by
  refine ⟨by decide, by decide⟩

/-- Claim C3 as amended: in every state reachable from the initial store by
any sequence of operations (live ingest, offline batches, mark-as-read,
inbound read receipts, local sends) there is at most one Conversation per
peerId; the second half of the claim — that unreadCount always equals the
number of unread messages from the peer — does not hold (see the
counterexample: handleMessageRead breaks it). -/
theorem c3_amended_unique_conversation_per_peer :
    ∀ (uid : Int) (ops : List ChatOp),
    (convKeys (runOps (initChatState uid) ops).conversationCache).Nodup := by
  intro uid ops
  have main : ∀ (l : List ChatOp) (s : ChatState), (convKeys s.conversationCache).Nodup →
      (convKeys (runOps s l).conversationCache).Nodup := by
    intro l
    induction l with
    | nil => intro s h; exact h
    | cons op rest ih =>
      intro s h
      exact ih (applyOp s op) (nodup_convKeys_applyOp s op h)
  exact main ops (initChatState uid) (by simp [initChatState, convKeys])

/-- countBucket distributes over list append. -/
theorem countBucket_append (a b : List ChatMsg) (sid rid : Int) (t : Int) (body : String) :
    countBucket (a ++ b) sid rid t body
      = countBucket a sid rid t body + countBucket b sid rid t body := by
  simp [countBucket, List.filter_append]

/-- countBucket of a singleton is the match indicator. -/
theorem countBucket_single (m : ChatMsg) (sid rid : Int) (t : Int) (body : String) :
    countBucket [m] sid rid t body
      = (if m.senderId = sid ∧ m.receiverId = rid ∧ m.createdAt = t ∧ m.message = body
         then 1 else 0) := by
  by_cases h : m.senderId = sid ∧ m.receiverId = rid ∧ m.createdAt = t ∧ m.message = body
  · simp [countBucket, List.filter, h]
  · simp [countBucket, List.filter, h]

/-- Pushing one message into a bucket raises the whole-store identity count
by exactly the match indicator of that message (no other row is touched). -/
theorem countMap_set_append :
    ∀ (c : MsgCache) (u : Int) (m : ChatMsg) (sid rid : Int) (t : Int) (body : String),
    (List.map (fun p => countBucket p.2 sid rid t body) (cacheSet c u (cacheGet c u ++ [m]))).sum
      = (List.map (fun p => countBucket p.2 sid rid t body) c).sum
        + (if m.senderId = sid ∧ m.receiverId = rid ∧ m.createdAt = t ∧ m.message = body
           then 1 else 0) := by
  intro c u m sid rid t body
  induction c with
  | nil =>
    simp [cacheSet, cacheGet, countBucket_single]
  | cons p rest ih =>
    obtain ⟨k, w⟩ := p
    by_cases h : k = u
    · subst h
      simp only [cacheGet, cacheSet, if_pos rfl, if_true, eq_self_iff_true,
        List.map_cons, List.sum_cons]
      rw [countBucket_append, countBucket_single]
      omega
    · simp only [cacheGet, if_neg h, cacheSet, List.map_cons, List.sum_cons]
      rw [ih]
      omega

/-- State-level version of countMap_set_append. -/
theorem countStore_addMessageToCache (s : ChatState) (u : Int) (m : ChatMsg)
    (sid rid : Int) (t : Int) (body : String) :
    countStore (addMessageToCache s u m) sid rid t body
      = countStore s sid rid t body
        + (if m.senderId = sid ∧ m.receiverId = rid ∧ m.createdAt = t ∧ m.message = body
           then 1 else 0) :=
  countMap_set_append s.messageCache u m sid rid t body

/-- Counterexample to claim C4: user 1 sends "hello" to peer 2; when the
server-confirmed counterpart (same senderId, receiverId, createdAt, body;
id now assigned) arrives through handleNewMessage, the store ends up with
two entries matching the pending identity — not one. Nothing in the code
reconciles a pending row in place. -/
theorem c4_counterexample_duplicate_entries :
    countStore (handleNewMessage (sendMessage (initChatState 1) 2 "hello" 2000) mConfirmed)
        1 2 2000 "hello" = 2 ∧
    ¬ countStore (handleNewMessage (sendMessage (initChatState 1) 2 "hello" 2000) mConfirmed)
        1 2 2000 "hello" = 1 := by
  refine ⟨by decide, by decide⟩

/-- Claim C4 as amended: there is no reconciliation. The pending local entry
is appended on send, and when the confirmed counterpart arrives it is
appended as another fresh row (under the sender's bucket): the store's count
of entries matching the pending identity (senderId, receiverId, createdAt,
body) grows by exactly two — the pending and the confirmed rows coexist.
The message_sent acknowledgment only notifies listeners and mutates no
store state. -/
theorem c4_amended_no_reconciliation_two_rows :
    ∀ (s : ChatState) (r : Int) (text : String) (now : Int) (m : ChatMsg),
    m.senderId = s.currentUserId → m.receiverId = r → m.createdAt = now →
    m.message = text →
    countStore (handleNewMessage (sendMessage s r text now) m) s.currentUserId r now text
      = countStore s s.currentUserId r now text + 2 := by
  intro s r text now m h1 h2 h3 h4
  have hA : countStore (handleNewMessage (sendMessage s r text now) m)
        s.currentUserId r now text
      = countStore (addMessageToCache (sendMessage s r text now) m.senderId m)
        s.currentUserId r now text := rfl
  rw [hA, countStore_addMessageToCache, if_pos ⟨h1, h2, h3, h4⟩]
  have hB : countStore (sendMessage s r text now) s.currentUserId r now text
      = countStore (addMessageToCache s r
          { id := 0, senderId := s.currentUserId, receiverId := r, message := text,
            messageType := "text", isRead := false, createdAt := now,
            senderName := some "我", senderAvatar := none })
        s.currentUserId r now text := rfl
  rw [hB, countStore_addMessageToCache, if_pos ⟨rfl, rfl, rfl, rfl⟩]

/-- Witness for the amended C4 at the concrete pending/confirmed pair. -/
theorem c4_amended_witness :
    countStore (handleNewMessage (sendMessage (initChatState 1) 2 "hello" 2000) mConfirmed)
        (initChatState 1).currentUserId 2 2000 "hello"
      = countStore (initChatState 1) (initChatState 1).currentUserId 2 2000 "hello" + 2 :=
  c4_amended_no_reconciliation_two_rows (initChatState 1) 2 "hello" 2000 mConfirmed
    rfl rfl rfl rfl

/-- Counterexample to claim C10: a message satisfying all the claim's
hypotheses (senderName and senderAvatar defined, createdAt nonzero) but with
an empty messageType does not round-trip — `json.messageType || 'text'`
turns the empty string into "text". -/
theorem c10_counterexample_message_type_empty :
    msgTypeEmptyMsg.senderName.isSome = true ∧
    msgTypeEmptyMsg.senderAvatar.isSome = true ∧
    msgTypeEmptyMsg.createdAt ≠ 0 ∧
    ChatMsg.fromJson (ChatMsg.toJson msgTypeEmptyMsg) 99 ≠ msgTypeEmptyMsg ∧
    (ChatMsg.fromJson (ChatMsg.toJson msgTypeEmptyMsg) 99).messageType = "text" := by
  refine ⟨rfl, rfl, by decide, by decide, rfl⟩

/-- Claim C10 as amended: fromJson(toJson(m)) = m field by field (createdAt
compared by millisecond value) for every m whose senderName and senderAvatar
are defined, whose createdAt is nonzero, and additionally whose messageType
is nonempty (an empty messageType is replaced by "text", see the
counterexample). A createdAt of exactly the Unix epoch (0) decodes to the
current time instead of the original timestamp, and decoding an input with
every field absent succeeds, yielding type-appropriate defaults. -/
theorem c10_amended_roundtrip :
    (∀ (m : ChatMsg) (now : Int), m.senderName.isSome = true →
      m.senderAvatar.isSome = true → m.createdAt ≠ 0 → m.messageType ≠ "" →
      ChatMsg.fromJson (ChatMsg.toJson m) now = m) ∧
    (∀ (m : ChatMsg) (now : Int),
      (ChatMsg.fromJson (ChatMsg.toJson m) now).createdAt
        = if m.createdAt = 0 then now else m.createdAt) ∧
    (∀ now : Int, ChatMsg.fromJson emptyMsgJson now
      = { id := 0, senderId := 0, receiverId := 0, message := "",
          messageType := "text", isRead := false, createdAt := now,
          senderName := some "", senderAvatar := some "" }) := by
  refine ⟨?_, ?_, ?_⟩
  · intro m now hsn hsa hca hmt
    obtain ⟨sn, hsn'⟩ := Option.isSome_iff_exists.mp hsn
    obtain ⟨sa, hsa'⟩ := Option.isSome_iff_exists.mp hsa
    cases m with
    | mk id sid rid msg mt ir ca snF saF =>
      simp only at hsn' hsa' hca hmt
      subst hsn' hsa'
      simp only [ChatMsg.fromJson, ChatMsg.toJson, jsOrInt, jsOrStr, jsOrBool,
        ChatMsg.mk.injEq]
      refine ⟨?_, ?_, ?_, ?_, ?_, ?_, ?_, ?_, ?_⟩
      · split <;> simp_all
      · split <;> simp_all
      · split <;> simp_all
      · split <;> simp_all
      · split <;> simp_all
      · split <;> simp_all
      · split <;> simp_all
      · split <;> simp_all
      · split <;> simp_all
  · intro m now
    cases m with
    | mk id sid rid msg mt ir ca snF saF =>
      simp only [ChatMsg.fromJson, ChatMsg.toJson, jsOrInt]
  · intro now
    rfl

/-- Witness for the amended C10: a message with several falsy-but-present
fields (id 0, empty body, empty-but-defined senderName) round-trips, the
epoch-createdAt clause evaluates at a concrete message, and the all-absent
input decodes to the defaults. -/
theorem c10_amended_witness :
    ChatMsg.fromJson (ChatMsg.toJson okMsg) 99 = okMsg ∧
    (ChatMsg.fromJson (ChatMsg.toJson msg7A) 99).createdAt
      = (if msg7A.createdAt = 0 then (99 : Int) else msg7A.createdAt) ∧
    ChatMsg.fromJson emptyMsgJson 99
      = { id := 0, senderId := 0, receiverId := 0, message := "",
          messageType := "text", isRead := false, createdAt := 99,
          senderName := some "", senderAvatar := some "" } :=
  ⟨c10_amended_roundtrip.1 okMsg 99 rfl rfl (by decide) (by decide),
   c10_amended_roundtrip.2.1 msg7A 99,
   c10_amended_roundtrip.2.2 99⟩

end Harmony
